import Mathlib

/-!
Shallow embedding of the journal-stitch repository.

Sources embedded here:
- src/app/page.tsx: the client journal application (entry store, canvas
  composer, scan templating, browse/filter view, localStorage persistence).
- src/unnamed/part_000: the OCR API route (POST handler and extractText).

Modelling conventions:
- JavaScript strings are Lean String, and the relevant String.prototype
  methods (trim, includes, replace, toLowerCase, slice) are defined below
  with JavaScript semantics over the character list.
- JavaScript numbers are ℚ (positions, widths) or Int (Date.now ids).
- Optional / possibly-undefined values are Option.
- localStorage is a partial map from keys to parsed JSON values: the
  JSON.stringify / JSON.parse pair is modelled as the identity on the
  structured value (JsVal below), which is faithful for the values this
  program stores.
-/

/-- Characters matched by the JavaScript regex class backslash-s, which is
also the character set trimmed by String.prototype.trim: ASCII whitespace and
the common Unicode space characters. -/
def jsWsChar (c : Char) : Bool :=
  c = ' ' || c = '\t' || c = '\n' || c = '\r' || c = '\x0b' || c = '\x0c' ||
  c = '\u00A0' || c = '\u2028' || c = '\u2029' || c = '\uFEFF'

/-- JavaScript String.prototype.trim on a character list. -/
def jsTrimList (l : List Char) : List Char :=
  ((l.dropWhile jsWsChar).reverse.dropWhile jsWsChar).reverse

/-- JavaScript String.prototype.trim. -/
def jsTrim (s : String) : String :=
  String.mk (jsTrimList s.data)

/-- JavaScript String.prototype.toLowerCase (restricted to the ASCII range,
which is all this program compares). -/
def jsToLower (s : String) : String :=
  String.mk (s.data.map Char.toLower)

/-- Does the first character list start with the second. -/
def startsWithChars : List Char → List Char → Bool
  | _, [] => true
  | [], _ :: _ => false
  | c :: cs, p :: ps => c == p && startsWithChars cs ps

/-- Fuel-driven splitter on non-overlapping left-to-right occurrences of pat.
The fuel bounds the number of characters scanned, which makes the recursion
structural and kernel-reducible; callers pass the length of the scanned list,
which the scan never exceeds, so the fuel-exhausted case is unreachable. -/
def splitOnCharsGo (pat : List Char) : Nat → List Char → List Char → List (List Char)
  | _, [], acc => [acc.reverse]
  | 0, rest, acc => [acc.reverse ++ rest]
  | fuel + 1, c :: cs, acc =>
    if startsWithChars (c :: cs) pat then
      acc.reverse :: splitOnCharsGo pat fuel (cs.drop (pat.length - 1)) []
    else splitOnCharsGo pat fuel cs (c :: acc)

/-- JavaScript String.prototype.split with a nonempty string separator:
the pieces between the non-overlapping left-to-right matches. Every call
site in this file uses a nonempty separator. -/
def jsSplitOn (s pat : String) : List String :=
  if pat.data = [] then [s]
  else (splitOnCharsGo pat.data s.data.length s.data []).map String.mk

/-- JavaScript String.prototype.includes: substring containment. A nonempty
pattern occurs in s exactly when splitting s on it yields at least two parts. -/
def jsIncludes (s pat : String) : Bool :=
  pat == "" || decide (2 ≤ (jsSplitOn s pat).length)

/-- JavaScript String.prototype.replace with a plain-string pattern:
replaces only the first occurrence. -/
def jsReplaceFirst (s pat repl : String) : String :=
  match jsSplitOn s pat with
  | [] => s
  | [x] => x
  | x :: y :: rest => x ++ repl ++ y ++ String.join (rest.map fun r => pat ++ r)

/-- JavaScript Math.round: round half toward positive infinity. -/
def jsRound (q : ℚ) : ℚ :=
  ((⌊q + 1/2⌋ : ℤ) : ℚ)

/-! ## Data model (the TypeScript types of src/app/page.tsx) -/

structure Badge where
  label : String
  icon : String
  tone : String
deriving DecidableEq, Repr

structure EntryImage where
  src : String
deriving DecidableEq, Repr

structure EntryNote where
  text : String
  x : ℚ
  y : ℚ
deriving DecidableEq, Repr

structure EntrySticker where
  label : String
  icon : String
  tone : String
  tilt : String
deriving DecidableEq, Repr

/-- MemoryEntry from src/app/page.tsx. -/
structure MemoryEntry where
  id : Int
  title : String
  content : String
  dateLabel : String
  badges : List Badge
  images : Option (List EntryImage)
  notes : Option (List EntryNote)
  sticker : Option EntrySticker
deriving DecidableEq, Repr

structure PlacedImage where
  id : Int
  src : String
  x : ℚ
  y : ℚ
  width : ℚ
deriving DecidableEq, Repr

structure StickyNote where
  id : Int
  text : String
  x : ℚ
  y : ℚ
  width : ℚ
deriving DecidableEq, Repr

/-- The draft state of the canvas composer: the title / content / mood React
state plus the placed images and sticky notes. mood starts as the literal
"Feeling Good" and is only ever set to "Feeling X" by a mood-sticker click. -/
structure Draft where
  title : String
  content : String
  mood : String
  placedImages : List PlacedImage
  stickyNotes : List StickyNote
deriving DecidableEq, Repr

/-! ## Canvas composer: handleSubmit -/

/-- handleSubmit from src/app/page.tsx (lines 725-758). The Date values taken
inside the handler are passed in as the timestamp id and the formatted date
label. Returns the updated entry list and the updated draft state. -/
def handleSubmit (d : Draft) (nowId : Int) (dateLabel : String)
    (entries : List MemoryEntry) : List MemoryEntry × Draft :=
  let trimmedTitle := jsTrim d.title
  let trimmedContent := jsTrim d.content
  if trimmedTitle == "" && trimmedContent == "" &&
      d.placedImages.isEmpty && d.stickyNotes.isEmpty then
    (entries, d)
  else
    let newEntry : MemoryEntry :=
      { id := nowId
        title := if trimmedTitle == "" then "Untitled memory" else trimmedTitle
        content := if trimmedContent == "" then "No notes added." else trimmedContent
        dateLabel := dateLabel
        badges :=
          [ { label :=
                if jsReplaceFirst d.mood "Feeling " "" == "" then "Mood"
                else jsReplaceFirst d.mood "Feeling " ""
              icon := "mood"
              tone := "bg-blue-50 text-blue-700 border border-blue-200/80" },
            { label := "Journal"
              icon := "auto_stories"
              tone := "bg-slate-100 text-slate-700 border border-slate-200/90" } ]
        images := some (d.placedImages.map fun image => { src := image.src })
        notes := some ((d.stickyNotes.map fun note =>
            ({ text := jsTrim note.text, x := note.x, y := note.y } : EntryNote)).filter
          fun note => decide (0 < note.text.length))
        sticker := some
          { label := "New", icon := "fiber_new"
            tone := "bg-emerald-100 text-emerald-700", tilt := "rotate-3" } }
    (newEntry :: entries,
     { d with title := "", content := "", placedImages := [], stickyNotes := [] })

/-! ## Entry store: append and in-place edit -/

/-- The entry-store append: both handleSubmit and createScannedEntry commit
with setEntries applied to the function taking prev to the list with the new
entry in front. -/
def appendEntry (newEntry : MemoryEntry) (prev : List MemoryEntry) : List MemoryEntry :=
  newEntry :: prev

/-- A sequence of appends applied in order, oldest first. -/
def applyAppends (seq : List MemoryEntry) (init : List MemoryEntry) : List MemoryEntry :=
  seq.foldl (fun acc e => appendEntry e acc) init

/-- saveOpenEntryEdits from src/app/page.tsx (lines 579-607), acting on the
entry list. openId is the id of the entry open in the modal; editingTitle and
editingContent are the edit buffers. -/
def saveOpenEntryEdits (entries : List MemoryEntry) (openId : Int)
    (editingTitle editingContent : String) : List MemoryEntry :=
  let nextTitle := if jsTrim editingTitle == "" then "Untitled memory" else jsTrim editingTitle
  let nextContent := if jsTrim editingContent == "" then "No notes added." else jsTrim editingContent
  entries.map fun entry =>
    if entry.id == openId then { entry with title := nextTitle, content := nextContent }
    else entry

/-! ## Scan pipeline: whitespace normalization and templating

The first replace in buildScannedTemplate is the global JavaScript regex
"one or more whitespace characters followed by a newline" replaced by a single
newline. Because the whitespace class also matches the newline itself, every
match lies inside a maximal whitespace run: the greedy match starts at the
head of the run and ends at the last newline of the run (a match needs at
least one whitespace character before its final newline, so a run whose only
newline is its first character has no match). The run therefore collapses to
a newline followed by the trailing non-newline whitespace of the run, and the
scan resumes after the match, where no further newline remains in the run. -/

/-- Effect of the first global replace on one maximal whitespace run. -/
def collapseWsRun (run : List Char) : List Char :=
  let trailing := (run.reverse.takeWhile fun c => c != '\n').reverse
  if 2 ≤ run.length - trailing.length then '\n' :: trailing else run

/-- The global replace of whitespace-run-then-newline by a newline, as a map
over the maximal runs of whitespace / non-whitespace characters. -/
def replaceWsNl (l : List Char) : List Char :=
  ((l.splitBy fun a b => jsWsChar a == jsWsChar b).map fun run =>
    if (run.head?.map jsWsChar).getD false then collapseWsRun run else run).flatten

/-- The second global replace in buildScannedTemplate: three or more newlines
become exactly two. The regex is greedy, so each maximal newline run of length
at least three is one match. -/
def collapseNlRuns (l : List Char) : List Char :=
  ((l.splitBy fun a b => (a == '\n') == (b == '\n')).map fun run =>
    if decide (3 ≤ run.length) && run.all (fun c => c == '\n') then ['\n', '\n']
    else run).flatten

/-- cleanedText as computed at the top of buildScannedTemplate: the two global
replaces followed by trim. -/
def cleanedTextOf (rawText : String) : String :=
  jsTrim (String.mk (collapseNlRuns (replaceWsNl rawText.data)))

/-- getScannedTitle from src/app/page.tsx (lines 196-206). -/
def getScannedTitle (text : String) : String :=
  let firstLine :=
    ((((jsSplitOn text "\n").map jsTrim).find? fun line => decide (0 < line.data.length))).getD ""
  if firstLine == "" then "Scanned Memory"
  else if 64 < firstLine.data.length then jsTrim (String.mk (firstLine.data.take 64)) ++ "..."
  else firstLine

/-- buildScannedTemplate from src/app/page.tsx (lines 208-239): returns the
pair of the scanned title and the composed content document. -/
def buildScannedTemplate (rawText : String) : String × String :=
  let cleanedText := cleanedTextOf rawText
  let lines := ((jsSplitOn cleanedText "\n").map jsTrim).filter fun line => decide (0 < line.data.length)
  let summary := String.intercalate " " (lines.take 2)
  let highlights := lines.take 5
  let content := String.intercalate "\n" (
    ["SCANNED JOURNAL", "", "Summary:",
     if summary == "" then "No clear summary detected from the image." else summary,
     "", "Highlights:"] ++
    (if highlights.isEmpty then ["- No highlights detected."]
     else highlights.map fun line => "- " ++ line) ++
    ["", "Extracted Text:",
     if cleanedText == "" then "No readable text found in this image." else cleanedText])
  (getScannedTitle cleanedText, content)

/-- createScannedEntry from src/app/page.tsx (lines 555-577): templates the
OCR text and prepends a new scanned entry. -/
def createScannedEntry (rawText imageSrc : String) (nowId : Int) (dateLabel : String)
    (entries : List MemoryEntry) : List MemoryEntry :=
  let template := buildScannedTemplate rawText
  let newEntry : MemoryEntry :=
    { id := nowId
      title := template.1
      content := template.2
      dateLabel := dateLabel
      images := if imageSrc == "" then none else some [{ src := imageSrc }]
      badges :=
        [ { label := "Scanned", icon := "document_scanner"
            tone := "bg-violet-50 text-violet-700 border border-violet-200/80" },
          { label := "Journal", icon := "auto_stories"
            tone := "bg-slate-100 text-slate-700 border border-slate-200/90" } ]
      notes := none
      sticker := some
        { label := "Auto", icon := "auto_awesome"
          tone := "bg-cyan-100 text-cyan-700", tilt := "-rotate-2" } }
  newEntry :: entries

/-! ## Browse/filter view -/

/-- filteredEntries from src/app/page.tsx (lines 285-304). JavaScript Date
parsing and the local time zone are not translatable, so the composition of
parseDateLabel and toDateKey is a parameter dateKeyOf: it yields the local
year-month-day key of the parsed dateLabel, or none when parsing fails (an
invalid Date, excluded by the entryDate null check in the source). -/
def filteredEntries (dateKeyOf : String → Option String)
    (entries : List MemoryEntry) (query : String) (selectedDateKey : Option String) :
    List MemoryEntry :=
  let normalized := jsToLower (jsTrim query)
  entries.filter fun entry =>
    let matchesDate :=
      match selectedDateKey with
      | some key =>
        match dateKeyOf entry.dateLabel with
        | some k => k == key
        | none => false
      | none => true
    if !matchesDate then false
    else if normalized == "" then true
    else
      jsIncludes (jsToLower entry.title) normalized ||
      jsIncludes (jsToLower entry.content) normalized ||
      entry.badges.any fun badge => jsIncludes (jsToLower badge.label) normalized

/-! ## Drag clamping -/

/-- onPointerMove of the image drag effect (src/app/page.tsx lines 351-396):
the next top-left position of the dragged image, from the pointer position,
the canvas bounding rect, the stored drag offset and the image width. -/
def imageDragNext (clientX clientY rectLeft rectTop rectWidth rectHeight
    offX offY width : ℚ) : ℚ × ℚ :=
  let imageHeight := jsRound (width * 0.75)
  (min (max (clientX - rectLeft - offX) 0) (max (rectWidth - width) 0),
   min (max (clientY - rectTop - offY) 0) (max (rectHeight - imageHeight) 0))

/-- onPointerMove of the note drag effect (src/app/page.tsx lines 398-443):
same clamping with the fixed note height 136. -/
def noteDragNext (clientX clientY rectLeft rectTop rectWidth rectHeight
    offX offY width : ℚ) : ℚ × ℚ :=
  let noteHeight : ℚ := 136
  (min (max (clientX - rectLeft - offX) 0) (max (rectWidth - width) 0),
   min (max (clientY - rectTop - offY) 0) (max (rectHeight - noteHeight) 0))

/-! ## Local persistence -/

/-- Parsed JSON values, the result type of JSON.parse. -/
inductive JsVal where
  | null : JsVal
  | bool : Bool → JsVal
  | num : ℚ → JsVal
  | str : String → JsVal
  | arr : List JsVal → JsVal
  | obj : List (String × JsVal) → JsVal
deriving Repr

/-- JavaScript property access value.key for parsed JSON: a field of an
object, undefined (none) on every other value. -/
def jsonLookup (j : JsVal) (key : String) : Option JsVal :=
  match j with
  | JsVal.obj fields => (fields.find? fun p => p.1 == key).map fun p => p.2
  | _ => none

/-- JavaScript truthiness of a parsed JSON value. -/
def jsTruthy (j : JsVal) : Bool :=
  match j with
  | JsVal.null => false
  | JsVal.bool b => b
  | JsVal.num q => q != 0
  | JsVal.str s => s != ""
  | JsVal.arr _ => true
  | JsVal.obj _ => true

def badgeToJson (b : Badge) : JsVal :=
  JsVal.obj [("label", JsVal.str b.label), ("icon", JsVal.str b.icon),
    ("tone", JsVal.str b.tone)]

def imageToJson (i : EntryImage) : JsVal :=
  JsVal.obj [("src", JsVal.str i.src)]

def noteToJson (n : EntryNote) : JsVal :=
  JsVal.obj [("text", JsVal.str n.text), ("x", JsVal.num n.x), ("y", JsVal.num n.y)]

def stickerToJson (s : EntrySticker) : JsVal :=
  JsVal.obj [("label", JsVal.str s.label), ("icon", JsVal.str s.icon),
    ("tone", JsVal.str s.tone), ("tilt", JsVal.str s.tilt)]

/-- The JSON.stringify image of a MemoryEntry (canonical key order; absent
optional fields are omitted, exactly as stringify omits undefined fields). -/
def entryToJson (e : MemoryEntry) : JsVal :=
  JsVal.obj (
    [("id", JsVal.num (e.id : ℚ)), ("title", JsVal.str e.title),
     ("content", JsVal.str e.content), ("dateLabel", JsVal.str e.dateLabel),
     ("badges", JsVal.arr (e.badges.map badgeToJson))] ++
    (match e.images with
     | none => []
     | some l => [("images", JsVal.arr (l.map imageToJson))]) ++
    (match e.notes with
     | none => []
     | some l => [("notes", JsVal.arr (l.map noteToJson))]) ++
    (match e.sticker with
     | none => []
     | some s => [("sticker", stickerToJson s)]))

/-- The record filter inside readStoredEntries: entry is truthy and its id
field is a number. -/
def keepEntryRecord (entry : JsVal) : Bool :=
  jsTruthy entry &&
    match jsonLookup entry "id" with
    | some (JsVal.num _) => true
    | _ => false

/-- The record map inside readStoredEntries: the object spread with the
badges field replaced by itself when it is an array, else by an empty array.
A spread keeps the position of an existing key and appends a new one. -/
def withDefaultBadges (entry : JsVal) : JsVal :=
  match entry with
  | JsVal.obj fields =>
    let nextBadges :=
      match jsonLookup (JsVal.obj fields) "badges" with
      | some (JsVal.arr bs) => JsVal.arr bs
      | _ => JsVal.arr []
    if (fields.find? fun p => p.1 == "badges").isSome then
      JsVal.obj (fields.map fun p => if p.1 == "badges" then (p.1, nextBadges) else p)
    else JsVal.obj (fields ++ [("badges", nextBadges)])
  | other => other

/-- readStoredEntries from src/app/page.tsx (lines 167-194). The stored item
is modelled as the parsed JSON value: none covers the absent key, the read
failure and the JSON.parse failure, which all return the empty list. -/
def readStoredEntries (raw : Option JsVal) : List JsVal :=
  match raw with
  | none => []
  | some (JsVal.arr parsed) => (parsed.filter keepEntryRecord).map withDefaultBadges
  | some _ => []

/-- The persist-entries effect (src/app/page.tsx lines 481-490): store the
serialized entry list under the entries storage key. -/
def saveEntries (store : String → Option JsVal) (key : String)
    (entries : List MemoryEntry) : String → Option JsVal :=
  fun k => if k == key then some (JsVal.arr (entries.map entryToJson)) else store k

/-- Loading the entry list back from the store. -/
def loadEntries (store : String → Option JsVal) (key : String) : List JsVal :=
  readStoredEntries (store key)

/-! ## OCR route (src/unnamed/part_000) -/

structure GeminiPart where
  text : Option String
deriving DecidableEq, Repr

structure GeminiContent where
  parts : Option (List GeminiPart)
deriving DecidableEq, Repr

structure GeminiCandidate where
  content : Option GeminiContent
deriving DecidableEq, Repr

structure GeminiResponse where
  candidates : Option (List GeminiCandidate)
deriving DecidableEq, Repr

structure GeminiErrorBody where
  message : Option String
deriving DecidableEq, Repr

structure GeminiErrorResponse where
  error : Option GeminiErrorBody
deriving DecidableEq, Repr

/-- extractText from src/unnamed/part_000 (lines 23-30). -/
def extractText (payload : GeminiResponse) : String :=
  let first := payload.candidates.bind List.head?
  let parts := ((first.bind GeminiCandidate.content).bind GeminiContent.parts).getD []
  jsTrim (String.intercalate "\n" (parts.map fun part => part.text.getD ""))

/-- One provider HTTP response: response.ok with the parsed payload, or a
failure with the raw body text and the result of JSON.parse on it (none when
the body is not valid JSON). -/
inductive GeminiHttp where
  | success : GeminiResponse → GeminiHttp
  | failure : String → Option GeminiErrorResponse → GeminiHttp
deriving DecidableEq, Repr

/-- lastError update in the failure branch of the model loop:
the parsed error message when present, else the raw body. -/
def geminiFailureMessage (raw : String) (parsed : Option GeminiErrorResponse) : String :=
  match parsed with
  | none => raw
  | some p =>
    match p.error with
    | none => raw
    | some body =>
      match body.message with
      | none => raw
      | some m => m

/-- The response of the POST handler, as the JSON body fields it can set
plus the HTTP status. -/
structure ApiResponse where
  status : Nat
  error : Option String
  details : Option String
  text : Option String
deriving DecidableEq, Repr

/-- The fixed ordered model list of the route. -/
def ocrModels : List String :=
  ["gemini-2.5-flash", "gemini-2.0-flash", "gemini-flash-latest"]

/-- The for-loop of the POST handler over the remaining models, carrying
lastError. -/
def postOcrLoop (respond : String → GeminiHttp) :
    List String → Option String → ApiResponse
  | [], lastErr =>
    { status := 502, error := some "Gemini OCR request failed."
      details := lastErr, text := none }
  | model :: rest, _lastErr =>
    match respond model with
    | GeminiHttp.success payload =>
      { status := 200, error := none, details := none
        text := some (extractText payload) }
    | GeminiHttp.failure raw parsed =>
      postOcrLoop respond rest (some (geminiFailureMessage raw parsed))

/-- JavaScript falsiness of a possibly-absent string: undefined or empty. -/
def strFalsy (o : Option String) : Bool :=
  match o with
  | none => true
  | some s => s == ""

/-- POST from src/unnamed/part_000 (lines 67-112). apiKey is the environment
variable, mimeType and base64 the request body fields (none when absent), and
respond gives the provider response for each model identifier. -/
def postOcr (apiKey : Option String) (mimeType base64 : Option String)
    (respond : String → GeminiHttp) : ApiResponse :=
  if strFalsy apiKey then
    { status := 500, error := some "Missing GEMINI_API_KEY in environment."
      details := none, text := none }
  else if strFalsy mimeType || strFalsy base64 then
    { status := 400, error := some "mimeType and base64 are required."
      details := none, text := none }
  else postOcrLoop respond ocrModels none

/-! ## Theorems -/

/-- The one-axis clamp used by both drag handlers. -/
lemma dragClamp_axis (a e c : ℚ) :
    0 ≤ min (max a 0) (max (c - e) 0) ∧
    (e ≤ c → min (max a 0) (max (c - e) 0) ≤ c - e) ∧
    (c < e → min (max a 0) (max (c - e) 0) = 0) := by
  refine ⟨le_min (le_max_right a 0) (le_max_right (c - e) 0), fun h => ?_, fun h => ?_⟩
  · calc min (max a 0) (max (c - e) 0) ≤ max (c - e) 0 := min_le_right _ _
      _ = c - e := max_eq_left (by linarith)
  · rw [max_eq_right (by linarith : c - e ≤ 0)]
    exact min_eq_right (le_max_right a 0)

/-- C2 (amended): during a drag, the computed top-left position is clamped to
the canvas: each coordinate is at least 0 and at most the container dimension
minus the element dimension whenever the element fits, and is exactly 0 when
the container dimension is smaller than the element dimension. The element
height is Math.round of width times 0.75 for images (the rounding is the
amendment) and the fixed constant 136 for notes. -/
theorem drag_position_clamped (clientX clientY rectLeft rectTop rectWidth rectHeight
    offX offY width : ℚ) :
    (0 ≤ (imageDragNext clientX clientY rectLeft rectTop rectWidth rectHeight offX offY width).1) ∧
    (width ≤ rectWidth →
      (imageDragNext clientX clientY rectLeft rectTop rectWidth rectHeight offX offY width).1 ≤
        rectWidth - width) ∧
    (rectWidth < width →
      (imageDragNext clientX clientY rectLeft rectTop rectWidth rectHeight offX offY width).1 = 0) ∧
    (0 ≤ (imageDragNext clientX clientY rectLeft rectTop rectWidth rectHeight offX offY width).2) ∧
    (jsRound (width * 0.75) ≤ rectHeight →
      (imageDragNext clientX clientY rectLeft rectTop rectWidth rectHeight offX offY width).2 ≤
        rectHeight - jsRound (width * 0.75)) ∧
    (rectHeight < jsRound (width * 0.75) →
      (imageDragNext clientX clientY rectLeft rectTop rectWidth rectHeight offX offY width).2 = 0) ∧
    (0 ≤ (noteDragNext clientX clientY rectLeft rectTop rectWidth rectHeight offX offY width).1) ∧
    (width ≤ rectWidth →
      (noteDragNext clientX clientY rectLeft rectTop rectWidth rectHeight offX offY width).1 ≤
        rectWidth - width) ∧
    (rectWidth < width →
      (noteDragNext clientX clientY rectLeft rectTop rectWidth rectHeight offX offY width).1 = 0) ∧
    (0 ≤ (noteDragNext clientX clientY rectLeft rectTop rectWidth rectHeight offX offY width).2) ∧
    ((136 : ℚ) ≤ rectHeight →
      (noteDragNext clientX clientY rectLeft rectTop rectWidth rectHeight offX offY width).2 ≤
        rectHeight - 136) ∧
    (rectHeight < (136 : ℚ) →
      (noteDragNext clientX clientY rectLeft rectTop rectWidth rectHeight offX offY width).2 = 0) := by
  simp only [imageDragNext, noteDragNext]
  exact ⟨(dragClamp_axis _ _ _).1, (dragClamp_axis _ _ _).2.1, (dragClamp_axis _ _ _).2.2,
    (dragClamp_axis _ _ _).1, (dragClamp_axis _ _ _).2.1, (dragClamp_axis _ _ _).2.2,
    (dragClamp_axis _ _ _).1, (dragClamp_axis _ _ _).2.1, (dragClamp_axis _ _ _).2.2,
    (dragClamp_axis _ _ _).1, (dragClamp_axis _ _ _).2.1, (dragClamp_axis _ _ _).2.2⟩

/-- Witness for drag_position_clamped at a concrete drag state. -/
theorem drag_position_clamped_witness :
    (imageDragNext 50 40 0 0 200 150 5 5 40).1 ≤ 200 - 40 ∧
    (imageDragNext 50 40 0 0 200 150 5 5 40).2 ≤ 150 - jsRound (40 * 0.75) ∧
    (noteDragNext 50 40 0 0 200 150 5 5 40).2 ≤ 150 - 136 := by
  have h := drag_position_clamped 50 40 0 0 200 150 5 5 40
  exact ⟨h.2.1 (by norm_num), h.2.2.2.2.1 (by norm_num [jsRound]),
    h.2.2.2.2.2.2.2.2.2.2.1 (by norm_num)⟩

/-- C2 counterexample to the claim as stated: with image width 16/5 the claim
takes the element height to be width times 0.75 = 12/5; at container height
12/5 the element then exactly fits and the claimed bound forces y = 0, but the
code clamps against the rounded height 2 and returns y = 2/5. -/
theorem drag_claim_counterexample :
    (imageDragNext 0 100 0 0 10 (12/5) 0 0 (16/5)).2 = 2/5 ∧
    (16/5 : ℚ) * 0.75 ≤ 12/5 ∧
    ¬ ((imageDragNext 0 100 0 0 10 (12/5) 0 0 (16/5)).2 ≤ 12/5 - (16/5) * 0.75) := by
  have hr : jsRound ((16/5 : ℚ) * 0.75) = 2 := by norm_num [jsRound]
  refine ⟨?_, by norm_num, ?_⟩ <;> simp only [imageDragNext, hr] <;> norm_num

/-- C7: every append prepends, so the store is in reverse insertion order:
applying a sequence of appends yields the reversed sequence in front of the
initial list, the most recently appended entry is first, the prior entries
keep their relative order (the initial list is a suffix), and both committing
paths (handleSubmit and createScannedEntry) only ever put one new entry in
front of the existing list. -/
theorem append_reverse_chronological (seq init : List MemoryEntry) :
    applyAppends seq init = seq.reverse ++ init ∧
    (seq ≠ [] → (applyAppends seq init).head? = seq.getLast?) ∧
    List.IsSuffix init (applyAppends seq init) ∧
    (∀ d nowId dateLabel, List.IsSuffix init (handleSubmit d nowId dateLabel init).1) ∧
    (∀ rawText imageSrc nowId dateLabel,
      List.IsSuffix init (createScannedEntry rawText imageSrc nowId dateLabel init)) := by
  have key : ∀ (s : List MemoryEntry) (i : List MemoryEntry),
      applyAppends s i = s.reverse ++ i := by
    intro s
    induction s with
    | nil => intro i; rfl
    | cons a t ih =>
      intro i
      calc applyAppends (a :: t) i = applyAppends t (a :: i) := rfl
        _ = t.reverse ++ (a :: i) := ih (a :: i)
        _ = (a :: t).reverse ++ i := by simp
  refine ⟨key seq init, fun h => ?_, ⟨seq.reverse, (key seq init).symm⟩, ?_, ?_⟩
  · rw [key seq init, List.head?_append, List.head?_reverse]
    cases hl : seq.getLast? with
    | none => exact absurd (List.getLast?_eq_none_iff.mp hl) h
    | some x => rfl
  · intro d nowId dateLabel
    simp only [handleSubmit]
    split
    · exact List.suffix_refl init
    · exact List.suffix_cons _ init
  · intro rawText imageSrc nowId dateLabel
    exact List.suffix_cons _ init

/-- Witness for append_reverse_chronological on a two-entry sequence. -/
theorem append_reverse_chronological_witness :
    (applyAppends
      [⟨1, "a", "", "d1", [], none, none, none⟩, ⟨2, "b", "", "d2", [], none, none, none⟩]
      []).head? = some ⟨2, "b", "", "d2", [], none, none, none⟩ := by
  have h := (append_reverse_chronological
    [⟨1, "a", "", "d1", [], none, none, none⟩, ⟨2, "b", "", "d2", [], none, none, none⟩]
    []).2.1 (by decide)
  rw [h]; rfl

/-- C6: saveOpenEntryEdits keeps the list length, rewrites only the title and
content of the entry whose id matches (id, dateLabel, badges, images, notes
and sticker are untouched), leaves every other entry unchanged, and is a
no-op on the whole store when no entry has the open id. -/
theorem update_frame (entries : List MemoryEntry) (openId : Int)
    (editingTitle editingContent : String) :
    (saveOpenEntryEdits entries openId editingTitle editingContent).length = entries.length ∧
    (∀ (i : ℕ) (e : MemoryEntry), entries[i]? = some e →
      ∃ eNew, (saveOpenEntryEdits entries openId editingTitle editingContent)[i]? = some eNew ∧
        (e.id ≠ openId → eNew = e) ∧
        (e.id = openId → eNew.id = e.id ∧ eNew.dateLabel = e.dateLabel ∧
          eNew.badges = e.badges ∧ eNew.images = e.images ∧ eNew.notes = e.notes ∧
          eNew.sticker = e.sticker)) ∧
    ((∀ e ∈ entries, e.id ≠ openId) →
      saveOpenEntryEdits entries openId editingTitle editingContent = entries) := by
  refine ⟨by simp [saveOpenEntryEdits], ?_, ?_⟩
  · intro i e he
    simp only [saveOpenEntryEdits, List.getElem?_map, he, Option.map_some']
    refine ⟨_, rfl, fun hne => ?_, fun heq => ?_⟩
    · rw [if_neg (by simpa using hne)]
    · rw [if_pos (by simpa using heq)]
      exact ⟨rfl, rfl, rfl, rfl, rfl, rfl⟩
  · intro h
    simp only [saveOpenEntryEdits]
    conv_rhs => rw [← List.map_id entries]
    refine List.map_congr_left fun e he => ?_
    rw [if_neg (by simpa using h e he)]
    rfl

/-- Witness for update_frame: an edit aimed at an absent id changes nothing. -/
theorem update_frame_witness :
    saveOpenEntryEdits [⟨7, "t", "c", "d", [], none, none, none⟩] 9 "x" "y" =
      [⟨7, "t", "c", "d", [], none, none, none⟩] := by
  exact (update_frame [⟨7, "t", "c", "d", [], none, none, none⟩] 9 "x" "y").2.2 (by decide)

/-- C10: an in-place edit stores the trimmed title, with the placeholder
"Untitled memory" when the trim is empty, and the trimmed content, with the
placeholder "No notes added." when the trim is empty - the same normalization
handleSubmit applies - so the stored title and content are never empty. -/
theorem edit_normalization (entries : List MemoryEntry) (openId : Int)
    (editingTitle editingContent : String) :
    ∀ eNew ∈ saveOpenEntryEdits entries openId editingTitle editingContent,
      eNew.id = openId →
        eNew.title = (if jsTrim editingTitle == "" then "Untitled memory"
          else jsTrim editingTitle) ∧
        eNew.content = (if jsTrim editingContent == "" then "No notes added."
          else jsTrim editingContent) ∧
        eNew.title ≠ "" ∧ eNew.content ≠ "" := by
  intro eNew hmem hid
  simp only [saveOpenEntryEdits, List.mem_map] at hmem
  obtain ⟨e, he, rfl⟩ := hmem
  by_cases h : (e.id == openId) = true
  · rw [if_pos h] at hid ⊢
    refine ⟨rfl, rfl, ?_, ?_⟩
    · by_cases ht : (jsTrim editingTitle == "") = true <;>
        simp_all
    · by_cases hc : (jsTrim editingContent == "") = true <;>
        simp_all
  · rw [if_neg h] at hid
    exact absurd hid (by simpa using h)

/-- Witness for edit_normalization: blank title and blank content buffers
store the two placeholders. -/
theorem edit_normalization_witness :
    ∃ eNew ∈ saveOpenEntryEdits [⟨3, "t", "c", "d", [], none, none, none⟩] 3 "   " " hi ",
      eNew.title = "Untitled memory" ∧ eNew.content = "hi" ∧ eNew.title ≠ "" := by
  have h := edit_normalization [⟨3, "t", "c", "d", [], none, none, none⟩] 3 "   " " hi "
    ⟨3, "Untitled memory", "hi", "d", [], none, none, none⟩ (by decide) (by decide)
  exact ⟨⟨3, "Untitled memory", "hi", "d", [], none, none, none⟩, by decide,
    by decide, by decide, h.2.2.1⟩

/-- C1 (amended): handleSubmit is a no-op exactly when the trimmed title and
trimmed content are empty and there are no placed images and no sticky notes;
otherwise it prepends exactly one entry whose title and content fall back to
the placeholders "Untitled memory" / "No notes added." when their trims are
empty, whose notes are the sticky notes with trimmed non-empty text, whose
badges are the mood badge - labelled by the mood string with its first
"Feeling " removed, falling back to "Mood" only when that removal leaves the
empty string (so the default no-sticker mood "Feeling Good" yields "Good") -
followed by the fixed "Journal" badge, and it resets the draft title, content,
placed images and sticky notes. -/
theorem submit_spec (d : Draft) (nowId : Int) (dateLabel : String)
    (entries : List MemoryEntry) :
    (jsTrim d.title = "" ∧ jsTrim d.content = "" ∧ d.placedImages = [] ∧ d.stickyNotes = [] →
      handleSubmit d nowId dateLabel entries = (entries, d)) ∧
    (¬ (jsTrim d.title = "" ∧ jsTrim d.content = "" ∧
        d.placedImages = [] ∧ d.stickyNotes = []) →
      handleSubmit d nowId dateLabel entries =
        ({ id := nowId
           title := if jsTrim d.title == "" then "Untitled memory" else jsTrim d.title
           content := if jsTrim d.content == "" then "No notes added." else jsTrim d.content
           dateLabel := dateLabel
           badges :=
             [ { label :=
                   if jsReplaceFirst d.mood "Feeling " "" == "" then "Mood"
                   else jsReplaceFirst d.mood "Feeling " ""
                 icon := "mood"
                 tone := "bg-blue-50 text-blue-700 border border-blue-200/80" },
               { label := "Journal"
                 icon := "auto_stories"
                 tone := "bg-slate-100 text-slate-700 border border-slate-200/90" } ]
           images := some (d.placedImages.map fun image => { src := image.src })
           notes := some ((d.stickyNotes.map fun note =>
               ({ text := jsTrim note.text, x := note.x, y := note.y } : EntryNote)).filter
             fun note => decide (0 < note.text.length))
           sticker := some
             { label := "New", icon := "fiber_new"
               tone := "bg-emerald-100 text-emerald-700", tilt := "rotate-3" } } :: entries,
         { d with title := "", content := "", placedImages := [], stickyNotes := [] })) := by
  constructor
  · rintro ⟨h1, h2, h3, h4⟩
    simp only [handleSubmit]
    rw [if_pos (by simp [h1, h2, h3, h4])]
  · intro h
    simp only [handleSubmit]
    rw [if_neg (by simpa [List.isEmpty_iff, and_assoc] using h)]

/-- Witness for submit_spec: a draft with only a title submits one entry with
the content placeholder and resets the draft. -/
theorem submit_spec_witness :
    handleSubmit ⟨" Hi ", "", "Feeling Good", [], []⟩ 5 "Jan 1, 2024" [] =
      ([⟨5, "Hi", "No notes added.", "Jan 1, 2024",
        [⟨"Good", "mood", "bg-blue-50 text-blue-700 border border-blue-200/80"⟩,
         ⟨"Journal", "auto_stories", "bg-slate-100 text-slate-700 border border-slate-200/90"⟩],
        some [], some [],
        some ⟨"New", "fiber_new", "bg-emerald-100 text-emerald-700", "rotate-3"⟩⟩],
       ⟨"", "", "Feeling Good", [], []⟩) := by
  have h := (submit_spec ⟨" Hi ", "", "Feeling Good", [], []⟩ 5 "Jan 1, 2024" []).2 (by decide)
  rw [h]; decide

/-- C1 counterexample to the claim as stated: with no mood sticker chosen the
mood state is the initial "Feeling Good", and the mood badge label of the
submitted entry is "Good", not the claimed default "Mood". -/
theorem submit_mood_label_counterexample :
    ((handleSubmit ⟨"Hi", "", "Feeling Good", [], []⟩ 5 "Jan 1, 2024" []).1.head?.map
      fun e => e.badges.map Badge.label) = some ["Good", "Journal"] ∧
    some ["Good", "Journal"] ≠ some ["Mood", "Journal"] := by
  exact ⟨by decide, by decide⟩

set_option maxRecDepth 4000 in
/-- C5: evaluation of the scan templating at the specified input. The first
regex replace already collapses the whole newline run, because the whitespace
class matches the newlines themselves, so the cleaned text retains no blank
line at all; the second replace (three or more newlines to exactly two),
which would produce the single blank line the claim describes, never fires. -/
theorem scanTemplate_eval :
    cleanedTextOf "Trip to the lake\nSaw a heron\n\n\nGreat day" =
      "Trip to the lake\nSaw a heron\nGreat day" ∧
    cleanedTextOf "Trip to the lake\nSaw a heron\n\n\nGreat day" ≠
      "Trip to the lake\nSaw a heron\n\nGreat day" ∧
    (buildScannedTemplate "Trip to the lake\nSaw a heron\n\n\nGreat day").1 =
      "Trip to the lake" ∧
    (buildScannedTemplate "Trip to the lake\nSaw a heron\n\n\nGreat day").2 =
      "SCANNED JOURNAL\n\nSummary:\nTrip to the lake Saw a heron\n\nHighlights:\n- Trip to the lake\n- Saw a heron\n- Great day\n\nExtracted Text:\nTrip to the lake\nSaw a heron\nGreat day" := by
  exact ⟨by decide, by decide, by decide, by decide⟩

/-- The date filter as the claim states it: pass when no date is selected, or
when the dateLabel parses and its local day key equals the selected one; an
entry whose label fails to parse never passes while a date is selected. -/
def claimDatePass (dateKeyOf : String → Option String) (selectedDateKey : Option String)
    (entry : MemoryEntry) : Bool :=
  match selectedDateKey with
  | none => true
  | some key =>
    match dateKeyOf entry.dateLabel with
    | some k => k == key
    | none => false

/-- The text filter exactly as the claim states it: the trimmed query is
empty, or the lowercased (untrimmed) query is a substring of the lowercased
title, the lowercased content, or some lowercased badge label. -/
def claimTextPass (query : String) (entry : MemoryEntry) : Bool :=
  jsTrim query == "" ||
  (jsIncludes (jsToLower entry.title) (jsToLower query) ||
   jsIncludes (jsToLower entry.content) (jsToLower query) ||
   entry.badges.any fun badge => jsIncludes (jsToLower badge.label) (jsToLower query))

/-- The text filter with the lowercased trimmed query (the amendment). -/
def specTextPass (query : String) (entry : MemoryEntry) : Bool :=
  jsTrim query == "" ||
  (jsIncludes (jsToLower entry.title) (jsToLower (jsTrim query)) ||
   jsIncludes (jsToLower entry.content) (jsToLower (jsTrim query)) ||
   entry.badges.any fun badge => jsIncludes (jsToLower badge.label) (jsToLower (jsTrim query)))

/-- Emptiness commutes with lowercasing, bridging the source order (trim then
lowercase then compare) with the claim wording (the trimmed query is empty). -/
lemma jsToLower_beq_empty (s : String) : (jsToLower s == "") = (s == "") := by
  cases s with
  | mk data =>
    cases data with
    | nil => rfl
    | cons c cs => rfl

/-- C4 (amended): the filtered view keeps exactly the entries passing both
the date filter and the text filter, where the text filter matches the
lowercased trimmed query against lowercased title, content and badge labels
(the amendment: the source trims the query before lowercasing and matching,
the claim as stated matches the untrimmed query). -/
theorem filter_characterization (dateKeyOf : String → Option String)
    (entries : List MemoryEntry) (query : String) (selectedDateKey : Option String) :
    filteredEntries dateKeyOf entries query selectedDateKey =
      entries.filter fun entry =>
        claimDatePass dateKeyOf selectedDateKey entry && specTextPass query entry := by
  unfold filteredEntries
  refine List.filter_congr fun entry hmem => ?_
  simp only [claimDatePass, specTextPass]
  cases selectedDateKey with
  | none =>
    simp only [Bool.not_true, Bool.true_and, Bool.false_eq_true, if_false]
    rw [jsToLower_beq_empty (jsTrim query)]
    by_cases h : (jsTrim query == "") = true <;> simp [h]
  | some key =>
    cases hkey : dateKeyOf entry.dateLabel with
    | none => simp
    | some k =>
      simp only [hkey]
      by_cases hq : k = key
      · subst hq
        simp only [beq_self_eq_true, Bool.not_true, Bool.true_and, Bool.false_eq_true, if_false]
        rw [jsToLower_beq_empty (jsTrim query)]
        by_cases h : (jsTrim query == "") = true <;> simp [h]
      · have h1 : (k == key) = false := beq_eq_false_iff_ne.mpr hq
        simp [h1]

/-- C4 counterexample to the claim as stated: the query " gym" has a nonempty
trim, and its lowercased untrimmed form " gym" is not a substring of the
title "gym", so the claimed filter drops the entry; the source filter matches
the trimmed query and keeps it. -/
theorem filter_claim_counterexample :
    filteredEntries (fun _ => none)
        [⟨1, "gym", "", "Jan 5, 2024", [], none, none, none⟩] " gym" none ≠
      List.filter (fun entry => claimDatePass (fun _ => none) none entry &&
          claimTextPass " gym" entry)
        [⟨1, "gym", "", "Jan 5, 2024", [], none, none, none⟩] := by
  decide

/-- C8 (amended): the key check precedes the body check, so a falsy API key
always yields the 500 response; with the key present, a missing or empty
mimeType or base64 yields the 400 response without consulting the provider;
with key and body present and all three configured models failing, the route
responds 502 with details equal to the last model attempt's message - the
parsed error.message when the failure body is JSON carrying one, else the
raw response body. -/
theorem ocr_error_responses (apiKey mimeType base64 : Option String)
    (respond : String → GeminiHttp) :
    (strFalsy apiKey = true →
      postOcr apiKey mimeType base64 respond =
        { status := 500, error := some "Missing GEMINI_API_KEY in environment."
          details := none, text := none }) ∧
    (strFalsy apiKey = false → (strFalsy mimeType = true ∨ strFalsy base64 = true) →
      postOcr apiKey mimeType base64 respond =
        { status := 400, error := some "mimeType and base64 are required."
          details := none, text := none } ∧
      ∀ respond2, postOcr apiKey mimeType base64 respond =
        postOcr apiKey mimeType base64 respond2) ∧
    (strFalsy apiKey = false → strFalsy mimeType = false → strFalsy base64 = false →
      ∀ raw1 p1 raw2 p2 raw3 p3,
        respond "gemini-2.5-flash" = GeminiHttp.failure raw1 p1 →
        respond "gemini-2.0-flash" = GeminiHttp.failure raw2 p2 →
        respond "gemini-flash-latest" = GeminiHttp.failure raw3 p3 →
        postOcr apiKey mimeType base64 respond =
          { status := 502, error := some "Gemini OCR request failed."
            details := some (geminiFailureMessage raw3 p3), text := none }) ∧
    (∀ raw, geminiFailureMessage raw none = raw) ∧
    (∀ raw m, geminiFailureMessage raw (some ⟨some ⟨some m⟩⟩) = m) := by
  refine ⟨fun hk => ?_, fun hk hbody => ⟨?_, fun respond2 => ?_⟩,
    fun hk hm hb raw1 p1 raw2 p2 raw3 p3 h1 h2 h3 => ?_,
    fun raw => rfl, fun raw m => rfl⟩
  · simp [postOcr, hk]
  · rcases hbody with h | h <;> simp [postOcr, hk, h]
  · rcases hbody with h | h <;> simp [postOcr, hk, h]
  · simp [postOcr, hk, hm, hb, ocrModels, postOcrLoop, h1, h2, h3]

/-- Witness for ocr_error_responses: all three models failing with a raw
non-JSON body yields 502 with that raw body as details. -/
theorem ocr_error_responses_witness :
    postOcr (some "k") (some "m") (some "b") (fun _ => GeminiHttp.failure "boom" none) =
      { status := 502, error := some "Gemini OCR request failed."
        details := some "boom", text := none } := by
  have h := (ocr_error_responses (some "k") (some "m") (some "b")
    (fun _ => GeminiHttp.failure "boom" none)).2.2.1 rfl rfl rfl
    "boom" none "boom" none "boom" none rfl rfl rfl
  simpa [geminiFailureMessage] using h

/-- C8 counterexample to the claim as stated: with the API key absent and
base64 missing the route answers 500, while the claim predicts 400 for the
missing body field and 502 for the all-models-fail provider behavior. -/
theorem ocr_claim_counterexample :
    (postOcr none (some "image/png") none fun _ => GeminiHttp.failure "boom" none).status = 500 ∧
    (postOcr none (some "image/png") none fun _ => GeminiHttp.failure "boom" none).status ≠ 400 ∧
    (postOcr none (some "image/png") none fun _ => GeminiHttp.failure "boom" none).status ≠ 502 := by
  exact ⟨rfl, by decide, by decide⟩

/-- The extracted text as the claim literally states it: every text fragment
in the payload - across all candidates - joined by newlines and trimmed. -/
def claimAllCandidatesText (p : GeminiResponse) : String :=
  jsTrim (String.intercalate "\n"
    (((p.candidates.getD []).map fun c =>
      ((c.content.bind GeminiContent.parts).getD []).map fun part => part.text.getD "").flatten))

/-- The extracted text as amended: the fragments of the first candidate only,
absent text fields contributing empty strings, joined by newlines, trimmed. -/
def firstCandidateText (p : GeminiResponse) : String :=
  match p.candidates with
  | none => ""
  | some [] => ""
  | some (c :: _) =>
    match c.content with
    | none => ""
    | some content =>
      match content.parts with
      | none => ""
      | some parts => jsTrim (String.intercalate "\n" (parts.map fun part => part.text.getD ""))

/-- C9 (amended): with key and body present the route tries the configured
models in their fixed order and answers 200 with the extraction of the first
successful payload; the extracted text is the newline-join of the text
fragments of the first candidate only, trimmed (the amendment: fragments of
further candidates are ignored). -/
theorem ocr_first_success (apiKey mimeType base64 : Option String)
    (respond : String → GeminiHttp) :
    (strFalsy apiKey = false → strFalsy mimeType = false → strFalsy base64 = false →
      (∀ p, respond "gemini-2.5-flash" = GeminiHttp.success p →
        postOcr apiKey mimeType base64 respond =
          { status := 200, error := none, details := none, text := some (extractText p) }) ∧
      (∀ raw1 q1 p, respond "gemini-2.5-flash" = GeminiHttp.failure raw1 q1 →
        respond "gemini-2.0-flash" = GeminiHttp.success p →
        postOcr apiKey mimeType base64 respond =
          { status := 200, error := none, details := none, text := some (extractText p) }) ∧
      (∀ raw1 q1 raw2 q2 p, respond "gemini-2.5-flash" = GeminiHttp.failure raw1 q1 →
        respond "gemini-2.0-flash" = GeminiHttp.failure raw2 q2 →
        respond "gemini-flash-latest" = GeminiHttp.success p →
        postOcr apiKey mimeType base64 respond =
          { status := 200, error := none, details := none, text := some (extractText p) })) ∧
    (∀ p, extractText p = firstCandidateText p) := by
  constructor
  · intro hk hm hb
    refine ⟨fun p h1 => ?_, fun raw1 q1 p h1 h2 => ?_,
      fun raw1 q1 raw2 q2 p h1 h2 h3 => ?_⟩
    · simp [postOcr, hk, hm, hb, ocrModels, postOcrLoop, h1]
    · simp [postOcr, hk, hm, hb, ocrModels, postOcrLoop, h1, h2]
    · simp [postOcr, hk, hm, hb, ocrModels, postOcrLoop, h1, h2, h3]
  · intro p
    obtain ⟨cands⟩ := p
    cases cands with
    | none => rfl
    | some l =>
      cases l with
      | nil => rfl
      | cons c rest =>
        obtain ⟨ct⟩ := c
        cases ct with
        | none => rfl
        | some content =>
          obtain ⟨parts⟩ := content
          cases parts with
          | none => rfl
          | some ps => rfl

/-- Witness for ocr_first_success: a single-candidate payload on the first
model yields 200 with its trimmed fragment join. -/
theorem ocr_first_success_witness :
    postOcr (some "k") (some "m") (some "b")
        (fun _ => GeminiHttp.success ⟨some [⟨some ⟨some [⟨some "hello"⟩]⟩⟩]⟩) =
      { status := 200, error := none, details := none, text := some "hello" } := by
  have h := ((ocr_first_success (some "k") (some "m") (some "b")
    (fun _ => GeminiHttp.success ⟨some [⟨some ⟨some [⟨some "hello"⟩]⟩⟩]⟩)).1 rfl rfl rfl).1
    ⟨some [⟨some ⟨some [⟨some "hello"⟩]⟩⟩]⟩ rfl
  rw [h]; decide

/-- C9 counterexample to the claim as stated: a payload with two candidates
each carrying one fragment is extracted as the first fragment "a" alone,
while the claimed all-fragments join is "a" newline "b". -/
theorem ocr_text_claim_counterexample :
    (postOcr (some "k") (some "m") (some "b") fun _ =>
        GeminiHttp.success ⟨some [⟨some ⟨some [⟨some "a"⟩]⟩⟩, ⟨some ⟨some [⟨some "b"⟩]⟩⟩]⟩).text =
      some "a" ∧
    claimAllCandidatesText ⟨some [⟨some ⟨some [⟨some "a"⟩]⟩⟩, ⟨some ⟨some [⟨some "b"⟩]⟩⟩]⟩ =
      "a\nb" ∧
    (postOcr (some "k") (some "m") (some "b") fun _ =>
        GeminiHttp.success ⟨some [⟨some ⟨some [⟨some "a"⟩]⟩⟩, ⟨some ⟨some [⟨some "b"⟩]⟩⟩]⟩).text ≠
      some (claimAllCandidatesText ⟨some [⟨some ⟨some [⟨some "a"⟩]⟩⟩, ⟨some ⟨some [⟨some "b"⟩]⟩⟩]⟩) := by
  exact ⟨by decide, by decide, by decide⟩

/-- Every serialized entry passes the numeric-id filter of readStoredEntries. -/
lemma keep_entryToJson (e : MemoryEntry) : keepEntryRecord (entryToJson e) = true := rfl

/-- The badges default of readStoredEntries fixes every serialized entry:
its badges field is present and an array. -/
lemma withDefaultBadges_entryToJson (e : MemoryEntry) :
    withDefaultBadges (entryToJson e) = entryToJson e := by
  obtain ⟨id1, t1, c1, dl1, b1, i1, n1, s1⟩ := e
  cases i1 <;> cases n1 <;> cases s1 <;> rfl

lemma badgeToJson_injective : Function.Injective badgeToJson := by
  intro x y hxy
  obtain ⟨l1, i1, t1⟩ := x
  obtain ⟨l2, i2, t2⟩ := y
  simp only [badgeToJson, JsVal.obj.injEq, List.cons.injEq, Prod.mk.injEq,
    JsVal.str.injEq] at hxy
  simp_all

lemma imageToJson_injective : Function.Injective imageToJson := by
  intro x y hxy
  obtain ⟨s1⟩ := x
  obtain ⟨s2⟩ := y
  simp only [imageToJson, JsVal.obj.injEq, List.cons.injEq, Prod.mk.injEq,
    JsVal.str.injEq] at hxy
  simp_all

lemma noteToJson_injective : Function.Injective noteToJson := by
  intro x y hxy
  obtain ⟨t1, x1, y1⟩ := x
  obtain ⟨t2, x2, y2⟩ := y
  simp only [noteToJson, JsVal.obj.injEq, List.cons.injEq, Prod.mk.injEq,
    JsVal.str.injEq, JsVal.num.injEq] at hxy
  simp_all

lemma stickerToJson_injective : Function.Injective stickerToJson := by
  intro x y hxy
  obtain ⟨l1, i1, t1, tl1⟩ := x
  obtain ⟨l2, i2, t2, tl2⟩ := y
  simp only [stickerToJson, JsVal.obj.injEq, List.cons.injEq, Prod.mk.injEq,
    JsVal.str.injEq] at hxy
  simp_all

lemma map_badgeToJson_inj_iff (l1 l2 : List Badge) :
    l1.map badgeToJson = l2.map badgeToJson ↔ l1 = l2 :=
  (List.map_injective_iff.mpr badgeToJson_injective).eq_iff

lemma map_imageToJson_inj_iff (l1 l2 : List EntryImage) :
    l1.map imageToJson = l2.map imageToJson ↔ l1 = l2 :=
  (List.map_injective_iff.mpr imageToJson_injective).eq_iff

lemma map_noteToJson_inj_iff (l1 l2 : List EntryNote) :
    l1.map noteToJson = l2.map noteToJson ↔ l1 = l2 :=
  (List.map_injective_iff.mpr noteToJson_injective).eq_iff

set_option maxHeartbeats 1000000 in
/-- Serialization of entries is injective, so equality of the loaded JSON
records with the serialized originals is equality of the entries. -/
lemma entryToJson_injective : Function.Injective entryToJson := by
  intro a b h
  obtain ⟨id1, t1, c1, dl1, b1, i1, n1, s1⟩ := a
  obtain ⟨id2, t2, c2, dl2, b2, i2, n2, s2⟩ := b
  cases i1 <;> cases i2 <;> cases n1 <;> cases n2 <;> cases s1 <;> cases s2 <;>
    simp_all [entryToJson, map_badgeToJson_inj_iff, map_imageToJson_inj_iff,
      map_noteToJson_inj_iff, stickerToJson_injective.eq_iff]

/-- C3: saving the entry list and loading it back from the same storage key
returns exactly the serialized original entries: every stored record has a
numeric id and a badges array, so the load-time sanitation (drop records
without numeric id, default a missing badges field) leaves all of them
unchanged; entry serialization being injective, the loaded list determines
the original entry list. -/
theorem entries_roundtrip (store : String → Option JsVal) (key : String)
    (es : List MemoryEntry) :
    loadEntries (saveEntries store key es) key = es.map entryToJson ∧
    Function.Injective entryToJson := by
  constructor
  · have round : ∀ l : List MemoryEntry,
        ((l.map entryToJson).filter keepEntryRecord).map withDefaultBadges =
          l.map entryToJson := by
      intro l
      induction l with
      | nil => rfl
      | cons e tail ih =>
        simp only [List.map_cons, List.filter_cons, keep_entryToJson, if_true,
          withDefaultBadges_entryToJson, ih]
    unfold loadEntries saveEntries
    simp only [beq_self_eq_true, if_true]
    exact round es
  · exact entryToJson_injective

/-- Witness for entries_roundtrip at a one-entry store holding every optional
field. -/
theorem entries_roundtrip_witness :
    loadEntries (saveEntries (fun _ => none) "sticker_journal_entries_v1"
        [⟨7, "t", "c", "Jan 5, 2024", [⟨"Gym", "fitness_center", "text-orange-500"⟩],
          some [⟨"img"⟩], some [⟨"note", 1, 2⟩],
          some ⟨"New", "fiber_new", "tone", "rotate-3"⟩⟩])
      "sticker_journal_entries_v1" =
      [entryToJson ⟨7, "t", "c", "Jan 5, 2024", [⟨"Gym", "fitness_center", "text-orange-500"⟩],
        some [⟨"img"⟩], some [⟨"note", 1, 2⟩],
        some ⟨"New", "fiber_new", "tone", "rotate-3"⟩⟩] ∧
    (⟨7, "t", "c", "Jan 5, 2024", [⟨"Gym", "fitness_center", "text-orange-500"⟩],
      some [⟨"img"⟩], some [⟨"note", 1, 2⟩],
      some ⟨"New", "fiber_new", "tone", "rotate-3"⟩⟩ : MemoryEntry) =
      ⟨7, "t", "c", "Jan 5, 2024", [⟨"Gym", "fitness_center", "text-orange-500"⟩],
        some [⟨"img"⟩], some [⟨"note", 1, 2⟩],
        some ⟨"New", "fiber_new", "tone", "rotate-3"⟩⟩ := by
  have h := entries_roundtrip (fun _ => none) "sticker_journal_entries_v1"
    [⟨7, "t", "c", "Jan 5, 2024", [⟨"Gym", "fitness_center", "text-orange-500"⟩],
      some [⟨"img"⟩], some [⟨"note", 1, 2⟩],
      some ⟨"New", "fiber_new", "tone", "rotate-3"⟩⟩]
  exact ⟨h.1, h.2 rfl⟩
